import Mathlib

/-!
# Gap Score validators — shallow embedding

Shallow embedding of the Gap Score reference validators:

* `src/validators/gap-score.go` — the Go reference validator.  Its `float64`
  arithmetic is modelled by exact rationals (`ℚ`); `math.Round` is
  round-half-away-from-zero, modelled exactly on `ℚ`.
* `src/unnamed/part_000` — the shell reference validator, whose arithmetic is
  bash integer arithmetic (truncating division), modelled on `ℕ`.

Go `int` fields are modelled by `ℤ`; lists keep the order of the JSON input
arrays, mirroring the Go slices.
-/

namespace GapScore

/-- Spec version constant (`specVersion` in gap-score.go). -/
def specVersion : String := "1.0.0"

/-- The four fixed coverage categories (`categories` in gap-score.go), in
declaration order. -/
def categories : List String := ["happy_path", "edge_case", "error_handling", "security"]

/-- One severity band (`levelDef` in gap-score.go): inclusive upper threshold,
level name, indicator glyph. -/
structure levelDef where
  threshold : ℚ
  name : String
  indicator : String
deriving DecidableEq, Repr

/-- The severity table (`levels` in gap-score.go), in ascending order. -/
def levels : List levelDef :=
  [⟨0, "perfect", "✅"⟩,
   ⟨15, "minor", "🟢"⟩,
   ⟨30, "moderate", "🟡"⟩,
   ⟨50, "significant", "🟠"⟩,
   ⟨100, "critical", "🔴"⟩]

/-- One entry of the `tests` input array (`TestResult` in gap-score.go).
Fields omitted in the JSON input are the empty string, matching Go's zero
value for `string`. -/
structure TestResult where
  name : String
  status : String
  category : String
  expected : String
  actual : String
  message : String
deriving DecidableEq, Repr

/-- One failure entry of the output report (`Failure` in gap-score.go). -/
structure Failure where
  test_name : String
  category : String
  expected : String
  actual : String
  message : String
deriving DecidableEq, Repr

/-- The `report` summary object (`reportSummary` in gap-score.go); the Go
`float64` score is modelled as an exact rational. -/
structure reportSummary where
  gap_score : ℚ
  level : String
deriving DecidableEq, Repr

/-- Total/passed/failed counts (`testStats` in gap-score.go); Go `int` is
modelled as `ℤ`. -/
structure testStats where
  total : ℤ
  passed : ℤ
  failed : ℤ
deriving DecidableEq, Repr

/-- Per-category sealed vs open counts (`CategoryComparison` in
gap-score.go). -/
structure CategoryComparison where
  sealed : ℤ
  opened : ℤ
  delta : ℤ
deriving DecidableEq, Repr

/-- The top-level output value (`Report` in gap-score.go).  Go's `*testStats`
with `omitempty` is an `Option`; the `map[string]CategoryComparison` with
`omitempty` is an optional association list (present iff non-nil in Go). -/
structure Report where
  specVersion : String
  report : reportSummary
  sealedTests : testStats
  openTests : Option testStats
  failures : List Failure
  coverageComparison : Option (List (String × CategoryComparison))
deriving DecidableEq, Repr

/-- `classifyGap` from gap-score.go: first severity band whose inclusive upper
threshold the score does not exceed; falls back to critical. -/
def classifyGap (score : ℚ) : String × String :=
  match levels.find? (fun l => decide (score ≤ l.threshold)) with
  | some l => (l.name, l.indicator)
  | none => ("critical", "🔴")

/-- Go's `math.Round`: round to the nearest integer, ties away from zero,
modelled exactly on `ℚ`. -/
def mathRound (q : ℚ) : ℤ :=
  if 0 ≤ q then ⌊q + 1 / 2⌋ else ⌈q - 1 / 2⌉

/-- `round1` from gap-score.go: `math.Round(f*10) / 10`, i.e. rounding to one
decimal digit, ties away from zero. -/
def round1 (q : ℚ) : ℚ :=
  (mathRound (q * 10) : ℚ) / 10

/-- Number of entries whose `status` is exactly `"failed"` (the loop counting
`rawFailures` in `buildReport`). -/
def countFailed (l : List TestResult) : Nat :=
  (l.filter fun t => t.status == "failed").length

/-- Number of entries whose `category` is exactly `cat` (the counting loops of
the coverage comparison in `buildReport`). -/
def countCat (l : List TestResult) (cat : String) : Nat :=
  (l.filter fun t => t.category == cat).length

/-- The score computation of `buildReport`: `0` when the sealed set is empty,
otherwise `round1(failed / total * 100)`. -/
def gapScore (s : List TestResult) : ℚ :=
  if 0 < s.length then
    round1 ((countFailed s : ℚ) / (s.length : ℚ) * 100)
  else 0

/-- Projection of one failed sealed test to a `Failure` entry (the loop body
building `failures` in `buildReport`): an empty category becomes the literal
`"unknown"`. -/
def toFailure (t : TestResult) : Failure :=
  { test_name := t.name
    category := if t.category == "" then "unknown" else t.category
    expected := t.expected
    actual := t.actual
    message := t.message }

/-- `buildReport` from gap-score.go.  `hasOpen` mirrors the Go flag: the open
totals and the coverage comparison are built only when an open suite was
supplied. -/
def buildReport (s : List TestResult) (opn : List TestResult) (hasOpen : Bool) : Report :=
  let total := s.length
  let failedCount := countFailed s
  let score := gapScore s
  { specVersion := specVersion
    report := ⟨score, (classifyGap score).1⟩
    sealedTests := ⟨(total : ℤ), (total : ℤ) - (failedCount : ℤ), (failedCount : ℤ)⟩
    openTests :=
      if hasOpen then
        some ⟨(opn.length : ℤ), (opn.length : ℤ) - (countFailed opn : ℤ), (countFailed opn : ℤ)⟩
      else none
    failures := (s.filter fun t => t.status == "failed").map toFailure
    coverageComparison :=
      if hasOpen then
        some (categories.map fun cat =>
          (cat, ⟨(countCat s cat : ℤ), (countCat opn cat : ℤ),
                 (countCat s cat : ℤ) - (countCat opn cat : ℤ)⟩))
      else none }

/-- The threshold gate at the end of `main` in gap-score.go: exit code 1 iff a
threshold was supplied and the (already rounded) score strictly exceeds it. -/
def gateExit (score : ℚ) (threshold : Option ℚ) : Nat :=
  match threshold with
  | some t => if score > t then 1 else 0
  | none => 0

/-- Outcome of one run of the shell validator (`src/unnamed/part_000`):
score ×10, level, indicator and exit code. -/
structure ShellOutcome where
  scoreX10 : Nat
  level : String
  indicator : String
  exitCode : Nat
deriving DecidableEq, Repr

/-- The shell validator (`src/unnamed/part_000`): bash integer arithmetic, so
`GAP_SCORE_X10 = (failed * 1000) / total` is truncating division; the level
thresholds compare the ×10 score against 0/150/300/500; the gate compares the
×10 score against `threshold * 10`.  A zero total short-circuits to a perfect
score with exit code 0. -/
def shellRun (total failed : Nat) (threshold : Option Nat) : ShellOutcome :=
  if total = 0 then ⟨0, "perfect", "✅", 0⟩
  else
    let x10 := failed * 1000 / total
    let lv : String × String :=
      if x10 = 0 then ("perfect", "✅")
      else if x10 ≤ 150 then ("minor", "🟢")
      else if x10 ≤ 300 then ("moderate", "🟡")
      else if x10 ≤ 500 then ("significant", "🟠")
      else ("critical", "🔴")
    let ec : Nat :=
      match threshold with
      | some t => if x10 > t * 10 then 1 else 0
      | none => 0
    ⟨x10, lv.1, lv.2, ec⟩

/-- One-decimal score formatting (`%.1f` in the summary output, for scores
that are exact multiples of 1/10, which every computed score is). -/
def fmt1 (q : ℚ) : String :=
  let k := (q * 10).num
  toString (k / 10) ++ "." ++ toString (k % 10)

/-- JSON string escaping for one character (quote and backslash). -/
def escChar (c : Char) : List Char :=
  if c = '"' then ['\\', '"']
  else if c = '\\' then ['\\', '\\']
  else [c]

/-- JSON string escaping. -/
def escape (s : String) : String :=
  ⟨s.data.flatMap escChar⟩

/-- A JSON string literal. -/
def quoteStr (s : String) : String :=
  "\"" ++ escape s ++ "\""

/-- JSON rendering of a number: integers bare, otherwise one decimal digit
(all numbers the validator emits are integers or exact tenths).  Models Go's
shortest-representation printing of those values. -/
def renderNum (q : ℚ) : String :=
  if q.den = 1 then toString q.num else fmt1 q

/-- JSON rendering of a `testStats` object, fields in Go struct order. -/
def renderStats (st : testStats) : String :=
  "\x7b\"total\":" ++ toString st.total ++ ",\"passed\":" ++ toString st.passed ++
    ",\"failed\":" ++ toString st.failed ++ "\x7d"

/-- JSON rendering of a `Failure` object, fields in Go struct order. -/
def renderFailure (f : Failure) : String :=
  "\x7b\"test_name\":" ++ quoteStr f.test_name ++ ",\"category\":" ++ quoteStr f.category ++
    ",\"expected\":" ++ quoteStr f.expected ++ ",\"actual\":" ++ quoteStr f.actual ++
    ",\"message\":" ++ quoteStr f.message ++ "\x7d"

/-- JSON rendering of a `CategoryComparison` object, fields in Go struct
order. -/
def renderComp (c : CategoryComparison) : String :=
  "\x7b\"sealed\":" ++ toString c.sealed ++ ",\"open\":" ++ toString c.opened ++
    ",\"delta\":" ++ toString c.delta ++ "\x7d"

/-- The coverage map keys in the order Go's `encoding/json` emits them:
map keys sorted lexicographically. -/
def sortedCategories : List String := ["edge_case", "error_handling", "happy_path", "security"]

/-- Lookup of one category in the coverage association list (total, with a
zero default that is never reached on reports the validator builds). -/
def lookupComp (l : List (String × CategoryComparison)) (cat : String) : CategoryComparison :=
  (l.lookup cat).getD ⟨0, 0, 0⟩

/-- Structured-mode rendering of a report (the `json.MarshalIndent` call in
`main`): fields in Go struct declaration order, `open_tests` and
`coverage_comparison` omitted when absent, coverage map keys in sorted order.
Modelled without the indentation whitespace `MarshalIndent` inserts; the
rendering is a deterministic function of the report, which is what the
byte-level round-trip property consumes. -/
def renderReport (r : Report) : String :=
  "\x7b\"gap_score_spec_version\":" ++ quoteStr r.specVersion ++
    ",\"report\":\x7b\"gap_score\":" ++ renderNum r.report.gap_score ++
    ",\"level\":" ++ quoteStr r.report.level ++ "\x7d" ++
    ",\"sealed_tests\":" ++ renderStats r.sealedTests ++
    (match r.openTests with
     | some st => ",\"open_tests\":" ++ renderStats st
     | none => "") ++
    ",\"failures\":[" ++ String.intercalate "," (r.failures.map renderFailure) ++ "]" ++
    (match r.coverageComparison with
     | some l =>
        ",\"coverage_comparison\":\x7b" ++
          String.intercalate ","
            (sortedCategories.map fun cat =>
              quoteStr cat ++ ":" ++ renderComp (lookupComp l cat)) ++ "\x7d"
     | none => "") ++
    "\x7d"

/-- Summary-mode rendering of a report (the `--format summary` branch of
`main`): headline with score, indicator and level; sealed pass line; open pass
line only when an open suite was supplied; failures block only when there is
at least one failure. -/
def renderSummary (r : Report) : String :=
  "Gap Score: " ++ fmt1 r.report.gap_score ++ "% " ++
    (classifyGap r.report.gap_score).2 ++ " (" ++ r.report.level ++ ")\n" ++
  "Sealed: " ++ toString r.sealedTests.passed ++ "/" ++ toString r.sealedTests.total ++
    " passed\n" ++
  (match r.openTests with
   | some st => "Open:   " ++ toString st.passed ++ "/" ++ toString st.total ++ " passed\n"
   | none => "") ++
  (if r.failures.length > 0 then
    "\nFailures (" ++ toString r.failures.length ++ "):\n" ++
      String.join (r.failures.map fun f => "  ❌ " ++ f.test_name ++ ": " ++ f.message ++ "\n")
   else "")

/-- The two output formats of the Go validator. -/
inductive OutputFormat where
  | json
  | summary
deriving DecidableEq, Repr

/-- The tail of `main` in gap-score.go after the inputs were loaded: build the
report, render it in the selected format, and derive the exit code from the
threshold gate (the gate runs after rendering, in both formats alike). -/
def runValidator (fmt : OutputFormat) (s opn : List TestResult) (hasOpen : Bool)
    (threshold : Option ℚ) : String × Nat :=
  let report := buildReport s opn hasOpen
  let out :=
    match fmt with
    | .json => renderReport report
    | .summary => renderSummary report
  (out, gateExit report.report.gap_score threshold)

/-- A JSON value tree.  Numbers are exact rationals (every number the
validator emits is an integer or an exact tenth). -/
inductive Json where
  | num : ℚ → Json
  | str : String → Json
  | arr : List Json → Json
  | obj : List (String × Json) → Json

/-- JSON tree of a `testStats` object, fields in Go struct order. -/
def statsToJson (st : testStats) : Json :=
  .obj [("total", .num (st.total : ℚ)), ("passed", .num (st.passed : ℚ)),
        ("failed", .num (st.failed : ℚ))]

/-- JSON tree of a `Failure` object, fields in Go struct order. -/
def failureToJson (f : Failure) : Json :=
  .obj [("test_name", .str f.test_name), ("category", .str f.category),
        ("expected", .str f.expected), ("actual", .str f.actual),
        ("message", .str f.message)]

/-- JSON tree of a `CategoryComparison` object, fields in Go struct order. -/
def compToJson (c : CategoryComparison) : Json :=
  .obj [("sealed", .num (c.sealed : ℚ)), ("open", .num (c.opened : ℚ)),
        ("delta", .num (c.delta : ℚ))]

/-- JSON tree of a full report, exactly as the structured formatter emits it:
struct fields in declaration order, `open_tests` and `coverage_comparison`
omitted (not null) when absent, map keys in sorted order. -/
def reportToJson (r : Report) : Json :=
  .obj
    ([("gap_score_spec_version", .str r.specVersion),
      ("report", .obj [("gap_score", .num r.report.gap_score),
                       ("level", .str r.report.level)]),
      ("sealed_tests", statsToJson r.sealedTests)]
     ++ (match r.openTests with
         | some st => [("open_tests", statsToJson st)]
         | none => [])
     ++ [("failures", .arr (r.failures.map failureToJson))]
     ++ (match r.coverageComparison with
         | some l =>
            [("coverage_comparison",
              .obj (sortedCategories.map fun cat => (cat, compToJson (lookupComp l cat))))]
         | none => []))

/-- Read a JSON string value. -/
def asStr : Json → Option String
  | .str s => some s
  | _ => none

/-- Read a JSON rational value. -/
def asRat : Json → Option ℚ
  | .num q => some q
  | _ => none

/-- Read a JSON integer value. -/
def asInt : Json → Option ℤ
  | .num q => if q.den = 1 then some q.num else none
  | _ => none

/-- Read the field list of a JSON object. -/
def objFields : Json → Option (List (String × Json))
  | .obj fs => some fs
  | _ => none

/-- Modelled from the spec: parsing one `testStats` object back from JSON (the
repository ships no parser for its own reports; the Go validator re-parses via
the standard library's `json.Unmarshal`, which is not repository code). -/
def statsFromJson (j : Json) : Option testStats := do
  let fs ← objFields j
  let t ← (fs.lookup "total").bind asInt
  let p ← (fs.lookup "passed").bind asInt
  let f ← (fs.lookup "failed").bind asInt
  pure ⟨t, p, f⟩

/-- Modelled from the spec: parsing one `Failure` object back from JSON. -/
def failureFromJson (j : Json) : Option Failure := do
  let fs ← objFields j
  let n ← (fs.lookup "test_name").bind asStr
  let c ← (fs.lookup "category").bind asStr
  let e ← (fs.lookup "expected").bind asStr
  let a ← (fs.lookup "actual").bind asStr
  let m ← (fs.lookup "message").bind asStr
  pure ⟨n, c, e, a, m⟩

/-- Modelled from the spec: parsing one `CategoryComparison` object back from
JSON. -/
def compFromJson (j : Json) : Option CategoryComparison := do
  let fs ← objFields j
  let s ← (fs.lookup "sealed").bind asInt
  let o ← (fs.lookup "open").bind asInt
  let d ← (fs.lookup "delta").bind asInt
  pure ⟨s, o, d⟩

/-- Modelled from the spec: parsing a list of failure objects back from JSON,
in order. -/
def failuresFromJson : List Json → Option (List Failure)
  | [] => some []
  | j :: js => do
      let f ← failureFromJson j
      let fs ← failuresFromJson js
      pure (f :: fs)

/-- Modelled from the spec: parsing a full report back from the structured
JSON output.  Absent `open_tests` / `coverage_comparison` fields parse to
`none`; the coverage map (unordered in Go) is rebuilt in the fixed category
order the report builder uses. -/
def reportFromJson (j : Json) : Option Report := do
  let fs ← objFields j
  let ver ← (fs.lookup "gap_score_spec_version").bind asStr
  let rep ← (fs.lookup "report").bind objFields
  let score ← (rep.lookup "gap_score").bind asRat
  let level ← (rep.lookup "level").bind asStr
  let sealedSt ← (fs.lookup "sealed_tests").bind statsFromJson
  let openSt ←
    match fs.lookup "open_tests" with
    | none => some none
    | some oj => (statsFromJson oj).map some
  let fails ←
    match fs.lookup "failures" with
    | some (.arr xs) => failuresFromJson xs
    | _ => none
  let cov ←
    match fs.lookup "coverage_comparison" with
    | none => some none
    | some cj => do
        let cfs ← objFields cj
        let hp ← (cfs.lookup "happy_path").bind compFromJson
        let ec ← (cfs.lookup "edge_case").bind compFromJson
        let eh ← (cfs.lookup "error_handling").bind compFromJson
        let se ← (cfs.lookup "security").bind compFromJson
        pure (some [("happy_path", hp), ("edge_case", ec), ("error_handling", eh),
                    ("security", se)])
  pure ⟨ver, ⟨score, level⟩, sealedSt, openSt, fails, cov⟩

/-! ## Sample inputs and helper lemmas -/

/-- A passing sample test. -/
def samplePass : TestResult := ⟨"p", "passed", "", "", "", ""⟩

/-- A failing sample test (with no category). -/
def sampleFail : TestResult := ⟨"f", "failed", "", "", "", ""⟩

/-- A sealed suite of 16 tests with exactly one failure: the exact failure
ratio is 6.25%, a tie at the second decimal. -/
def sealed16 : List TestResult := sampleFail :: List.replicate 15 samplePass

/-- A sealed suite of 18 tests with exactly two failures: the exact failure
ratio is 11.111...%. -/
def sealed18 : List TestResult := List.replicate 2 sampleFail ++ List.replicate 16 samplePass

theorem gateExit_some (q t : ℚ) : gateExit q (some t) = if t < q then 1 else 0 := rfl

theorem sealed16_score : (buildReport sealed16 [] false).report.gap_score = 63 / 10 := by
  have hc : countFailed sealed16 = 1 := by decide
  have hl : sealed16.length = 16 := by decide
  show gapScore sealed16 = 63 / 10
  unfold gapScore
  rw [hc, hl]
  norm_num [round1, mathRound]

theorem sealed18_score : (buildReport sealed18 [] false).report.gap_score = 111 / 10 := by
  have hc : countFailed sealed18 = 2 := by decide
  have hl : sealed18.length = 18 := by decide
  show gapScore sealed18 = 111 / 10
  unfold gapScore
  rw [hc, hl]
  norm_num [round1, mathRound]

theorem length_filter_status (l : List TestResult) :
    (l.filter fun t => !(t.status == "failed")).length +
      (l.filter fun t => t.status == "failed").length = l.length := by
  induction l with
  | nil => rfl
  | cons x l ih => by_cases h : x.status == "failed" <;> simp [List.filter, h] <;> omega

theorem shellRun_pos_some (total failed t : Nat) (h : ¬ total = 0) :
    (shellRun total failed (some t)).scoreX10 = failed * 1000 / total ∧
    (shellRun total failed (some t)).exitCode =
      if failed * 1000 / total > t * 10 then 1 else 0 := by
  unfold shellRun
  rw [if_neg h]
  exact ⟨rfl, rfl⟩

theorem failureFromJson_toJson (f : Failure) : failureFromJson (failureToJson f) = some f := rfl

theorem failuresFromJson_map (l : List Failure) :
    failuresFromJson (l.map failureToJson) = some l := by
  induction l with
  | nil => rfl
  | cons f fs ih => simp [failuresFromJson, failureFromJson_toJson, ih]

theorem rt_none_none (ver : String) (score : ℚ) (level : String) (st : testStats)
    (fails : List Failure) :
    reportFromJson (reportToJson ⟨ver, ⟨score, level⟩, st, none, fails, none⟩) =
      some ⟨ver, ⟨score, level⟩, st, none, fails, none⟩ := by
  show Option.bind (failuresFromJson (fails.map failureToJson))
      (fun fl => some (⟨ver, ⟨score, level⟩, st, none, fl, none⟩ : Report)) =
    some (⟨ver, ⟨score, level⟩, st, none, fails, none⟩ : Report)
  rw [failuresFromJson_map]
  rfl

theorem rt_some_some (ver : String) (score : ℚ) (level : String) (st ost : testStats)
    (fails : List Failure) (a b c d : CategoryComparison) :
    reportFromJson (reportToJson ⟨ver, ⟨score, level⟩, st, some ost, fails,
        some [("happy_path", a), ("edge_case", b), ("error_handling", c), ("security", d)]⟩) =
      some ⟨ver, ⟨score, level⟩, st, some ost, fails,
        some [("happy_path", a), ("edge_case", b), ("error_handling", c), ("security", d)]⟩ := by
  show Option.bind (failuresFromJson (fails.map failureToJson))
      (fun fl => some (⟨ver, ⟨score, level⟩, st, some ost, fl,
        some [("happy_path", a), ("edge_case", b), ("error_handling", c),
              ("security", d)]⟩ : Report)) =
    some (⟨ver, ⟨score, level⟩, st, some ost, fails,
      some [("happy_path", a), ("edge_case", b), ("error_handling", c),
            ("security", d)]⟩ : Report)
  rw [failuresFromJson_map]
  rfl

/-! ## Claims -/

/-- C1: the claim requires every conforming score computation — including the
shell validator's integer path — to report `failed/total*100` rounded
half-away-from-zero to one decimal.  The code falsifies this: on 1 failure out
of 16 (exact ratio 6.25%) the shell validator's truncating integer division
yields ×10 score 62 (printed `6.2`), while the rounding law — and the Go
validator — give 6.3. -/
theorem C1_shell_truncation_diverges :
    (shellRun 16 1 none).scoreX10 = 62 ∧
    (buildReport sealed16 [] false).report.gap_score = 63 / 10 ∧
    ((shellRun 16 1 none).scoreX10 : ℚ) / 10 ≠ (buildReport sealed16 [] false).report.gap_score := by
  have h62 : (shellRun 16 1 none).scoreX10 = 62 := by decide
  refine ⟨h62, sealed16_score, ?_⟩
  rw [h62, sealed16_score]
  norm_num

/-- C2: the level classifier is a pure function of the score with fixed
inclusive upper thresholds evaluated in ascending order, first match wins:
0 → perfect, 15.0 → minor, 15.1 → moderate, 30.0 → moderate,
50.0 → significant, 50.1 and anything above 50 → critical; the report `level`
field is the classifier's level component (the same classifier supplies the
indicator for human-readable output). -/
theorem C2_level_boundaries :
    (∀ (s o : List TestResult) (b : Bool),
      (buildReport s o b).report.level =
        (classifyGap (buildReport s o b).report.gap_score).1) ∧
    classifyGap 0 = ("perfect", "✅") ∧
    classifyGap 15 = ("minor", "🟢") ∧
    classifyGap (151 / 10) = ("moderate", "🟡") ∧
    classifyGap 30 = ("moderate", "🟡") ∧
    classifyGap 50 = ("significant", "🟠") ∧
    classifyGap (501 / 10) = ("critical", "🔴") ∧
    ∀ q : ℚ, 50 < q → classifyGap q = ("critical", "🔴") := by
  refine ⟨fun s o b => rfl,
    by norm_num [classifyGap, levels, List.find?],
    by norm_num [classifyGap, levels, List.find?],
    by norm_num [classifyGap, levels, List.find?],
    by norm_num [classifyGap, levels, List.find?],
    by norm_num [classifyGap, levels, List.find?],
    by norm_num [classifyGap, levels, List.find?], ?_⟩
  intro q hq
  have h0 : ¬ q ≤ (0 : ℚ) := by linarith
  have h15 : ¬ q ≤ (15 : ℚ) := by linarith
  have h30 : ¬ q ≤ (30 : ℚ) := by linarith
  have h50 : ¬ q ≤ (50 : ℚ) := by linarith
  by_cases h100 : q ≤ (100 : ℚ) <;>
    simp [classifyGap, levels, List.find?, h0, h15, h30, h50, h100]

/-- C2 witness: the quantified critical clause applied at score 60. -/
theorem C2_level_boundaries_witness : classifyGap 60 = ("critical", "🔴") :=
  C2_level_boundaries.2.2.2.2.2.2.2 60 (by norm_num)

/-- C3: with a threshold supplied the exit code is 1 exactly when the computed
score strictly exceeds it, otherwise 0; score equal to the threshold exits 0,
score equal to threshold + 0.1 exits 1; without a threshold the exit code is
0; the gate result is identical in both output formats; the shell validator's
gate agrees (its exit code is 1 iff its score exceeds the threshold). -/
theorem C3_threshold_gate :
    ∀ (fmt : OutputFormat) (s o : List TestResult) (b : Bool) (t : ℚ),
      (runValidator fmt s o b (some t)).2 =
        (if (buildReport s o b).report.gap_score > t then 1 else 0) ∧
      (runValidator fmt s o b none).2 = 0 ∧
      ((buildReport s o b).report.gap_score = t → (runValidator fmt s o b (some t)).2 = 0) ∧
      ((buildReport s o b).report.gap_score = t + 1 / 10 →
        (runValidator fmt s o b (some t)).2 = 1) ∧
      (runValidator OutputFormat.json s o b (some t)).2 =
        (runValidator OutputFormat.summary s o b (some t)).2 ∧
      ∀ total failed thr : Nat, 0 < total →
        ((shellRun total failed (some thr)).exitCode = 1 ↔
          (thr : ℚ) < ((shellRun total failed (some thr)).scoreX10 : ℚ) / 10) := by
  intro fmt s o b t
  refine ⟨rfl, rfl, ?_, ?_, rfl, ?_⟩
  · intro h
    show gateExit (buildReport s o b).report.gap_score (some t) = 0
    rw [gateExit_some, h, if_neg (lt_irrefl t)]
  · intro h
    show gateExit (buildReport s o b).report.gap_score (some t) = 1
    rw [gateExit_some, h, if_pos (by linarith)]
  · intro total failed thr ht
    have htz : ¬ total = 0 := by omega
    obtain ⟨h1, h2⟩ := shellRun_pos_some total failed thr htz
    rw [h1, h2, lt_div_iff₀ (by norm_num : (0 : ℚ) < 10)]
    constructor
    · intro hx
      by_cases hgt : thr * 10 < failed * 1000 / total
      · exact_mod_cast hgt
      · rw [if_neg hgt] at hx
        exact absurd hx (by norm_num)
    · intro hx
      have hn : thr * 10 < failed * 1000 / total := by exact_mod_cast hx
      rw [if_pos hn]

/-- C3 witness: gate instances — score 0 with threshold 0 exits 0; the
18-test/2-failure suite (score 11.1) with threshold 11 exits 1; the shell gate
equivalence at 18 total, 2 failed, threshold 15. -/
theorem C3_threshold_gate_witness :
    (runValidator OutputFormat.json [] [] false (some 0)).2 = 0 ∧
    (runValidator OutputFormat.summary sealed18 [] false (some 11)).2 = 1 ∧
    ((shellRun 18 2 (some 15)).exitCode = 1 ↔
      (15 : ℚ) < ((shellRun 18 2 (some 15)).scoreX10 : ℚ) / 10) :=
  ⟨(C3_threshold_gate OutputFormat.json [] [] false 0).2.2.1 rfl,
   (C3_threshold_gate OutputFormat.summary sealed18 [] false 11).2.2.2.1
     (by rw [sealed18_score]; norm_num),
   (C3_threshold_gate OutputFormat.json [] [] false 0).2.2.2.2.2 18 2 15 (by norm_num)⟩

/-- C4: a sealed result set with zero entries yields score exactly 0 and level
`perfect` in the Go validator, and the shell validator's zero-total path
likewise reports a perfect score with exit code 0 — the empty sealed suite is
a valid input. -/
theorem C4_empty_sealed_perfect :
    ∀ (o : List TestResult) (b : Bool) (f : Nat) (thr : Option Nat),
      (buildReport [] o b).report.gap_score = 0 ∧
      (buildReport [] o b).report.level = "perfect" ∧
      shellRun 0 f thr = ⟨0, "perfect", "✅", 0⟩ :=
  fun o b f thr => ⟨rfl, rfl, rfl⟩

/-- C5: the coverage comparison is present iff an open suite was supplied;
when present its keys are exactly the four fixed categories (other category
strings never appear as keys), each entry holding the sealed count, the open
count and delta = sealed − open; when no open suite was supplied the field is
omitted from the emitted JSON object entirely, and it is present there when an
open suite was supplied. -/
theorem C5_coverage_comparison :
    ∀ s o : List TestResult,
      (buildReport s o true).coverageComparison =
        some (categories.map fun cat =>
          (cat, ⟨(countCat s cat : ℤ), (countCat o cat : ℤ),
                 (countCat s cat : ℤ) - (countCat o cat : ℤ)⟩)) ∧
      ((buildReport s o true).coverageComparison.map fun l => l.map Prod.fst) =
        some categories ∧
      (∀ b : Bool, ((buildReport s o b).coverageComparison).isSome = b) ∧
      (buildReport s o false).coverageComparison = none ∧
      ((objFields (reportToJson (buildReport s o false))).map
        fun fs => fs.lookup "coverage_comparison") = some none ∧
      ((objFields (reportToJson (buildReport s o true))).map
        fun fs => (fs.lookup "coverage_comparison").isSome) = some true :=
  fun s o => ⟨rfl, rfl, fun b => by cases b <;> rfl, rfl, rfl, rfl⟩

/-- C6: the failures list is the in-order projection of exactly the failed
sealed tests (no truncation, no deduplication), is independent of the open
suite, and a failed test with empty category is projected with the literal
category `"unknown"`. -/
theorem C6_failures_projection :
    ∀ (s o o' : List TestResult) (b b' : Bool) (n st e a m : String),
      (buildReport s o b).failures =
        (s.filter fun t => t.status == "failed").map toFailure ∧
      (buildReport s o b).failures = (buildReport s o' b').failures ∧
      ((buildReport s o b).failures).length = countFailed s ∧
      toFailure ⟨n, st, "", e, a, m⟩ = ⟨n, "unknown", e, a, m⟩ := by
  intro s o o' b b' n st e a m
  refine ⟨rfl, rfl, ?_, rfl⟩
  show ((s.filter fun t => t.status == "failed").map toFailure).length = countFailed s
  simp [countFailed]

/-- C7: in every report, sealed total = sealed passed + sealed failed, and
when open totals are present, open total = open passed + open failed. -/
theorem C7_totals_additive :
    ∀ (s o : List TestResult) (b : Bool),
      (buildReport s o b).sealedTests.total =
        (buildReport s o b).sealedTests.passed + (buildReport s o b).sealedTests.failed ∧
      ∀ st : testStats, (buildReport s o b).openTests = some st →
        st.total = st.passed + st.failed := by
  intro s o b
  constructor
  · show (s.length : ℤ) = ((s.length : ℤ) - (countFailed s : ℤ)) + (countFailed s : ℤ)
    ring
  · intro st hst
    cases b with
    | false => exact Option.noConfusion hst
    | true =>
        have h2 : some (⟨(o.length : ℤ), (o.length : ℤ) - (countFailed o : ℤ),
            (countFailed o : ℤ)⟩ : testStats) = some st := hst
        injection h2 with h3
        rw [← h3]
        show (o.length : ℤ) = ((o.length : ℤ) - (countFailed o : ℤ)) + (countFailed o : ℤ)
        ring

/-- C7 witness: the open-totals clause applied to a two-test open suite. -/
theorem C7_totals_additive_witness :
    (⟨2, 2, 0⟩ : testStats).total =
      (⟨2, 2, 0⟩ : testStats).passed + (⟨2, 2, 0⟩ : testStats).failed :=
  (C7_totals_additive [] [samplePass, samplePass] true).2 ⟨2, 2, 0⟩ rfl

/-- C8: structured-mode round-trip — parsing the emitted JSON value of any
report the validator builds yields a value with identical field values, so
re-serializing it with the same formatter produces the same bytes. -/
theorem C8_structured_round_trip :
    ∀ (s o : List TestResult) (b : Bool),
      reportFromJson (reportToJson (buildReport s o b)) = some (buildReport s o b) ∧
      renderReport ((reportFromJson (reportToJson (buildReport s o b))).getD
          (buildReport s o b)) =
        renderReport (buildReport s o b) := by
  intro s o b
  have h : reportFromJson (reportToJson (buildReport s o b)) = some (buildReport s o b) := by
    cases b
    · exact rt_none_none _ _ _ _ _
    · exact rt_some_some _ _ _ _ _ _ _ _ _ _
  refine ⟨h, ?_⟩
  rw [h]
  rfl

/-- C9: only entries whose status string is exactly `"failed"` count as
failures: `passed` counts every entry with any other status (sealed and
open), and a test with status `"skipped"` or `"error"` is counted as passed
and produces no failures entry — such input is processed, not rejected. -/
theorem C9_nonfailed_statuses_count_passed :
    ∀ (s o : List TestResult) (b : Bool),
      (buildReport s o b).sealedTests.passed =
        ((s.filter fun t => !(t.status == "failed")).length : ℤ) ∧
      (buildReport s o true).openTests =
        some ⟨(o.length : ℤ), ((o.filter fun t => !(t.status == "failed")).length : ℤ),
              ((o.filter fun t => t.status == "failed").length : ℤ)⟩ ∧
      (buildReport [⟨"t", "skipped", "", "", "", ""⟩] [] false).sealedTests = ⟨1, 1, 0⟩ ∧
      (buildReport [⟨"t", "skipped", "", "", "", ""⟩] [] false).failures = [] ∧
      (buildReport [⟨"t", "error", "", "", "", ""⟩] [] false).sealedTests = ⟨1, 1, 0⟩ ∧
      (buildReport [⟨"t", "error", "", "", "", ""⟩] [] false).failures = [] := by
  intro s o b
  have hs := length_filter_status s
  have ho := length_filter_status o
  refine ⟨?_, ?_, by decide, by decide, by decide, by decide⟩
  · show (s.length : ℤ) - (countFailed s : ℤ) =
      ((s.filter fun t => !(t.status == "failed")).length : ℤ)
    unfold countFailed
    omega
  · show some (⟨(o.length : ℤ), (o.length : ℤ) - (countFailed o : ℤ),
        (countFailed o : ℤ)⟩ : testStats) = _
    have hnum : (o.length : ℤ) - (countFailed o : ℤ) =
        ((o.filter fun t => !(t.status == "failed")).length : ℤ) := by
      unfold countFailed
      omega
    rw [hnum]
    rfl

/-- C10: the threshold gate compares the already-rounded one-decimal score,
not the raw ratio: whenever the rounded score is ≤ the threshold the exit
code is 0; in particular 2 failures out of 18 score exactly 11.1, which is
strictly below the raw ratio 100/9 ≈ 11.111%, and with threshold 11.1 the
gate exits 0. -/
theorem C10_gate_compares_rounded_score :
    (∀ (s o : List TestResult) (b : Bool) (t : ℚ),
      (buildReport s o b).report.gap_score ≤ t →
        gateExit (buildReport s o b).report.gap_score (some t) = 0) ∧
    (buildReport sealed18 [] false).report.gap_score = 111 / 10 ∧
    (111 : ℚ) / 10 < (countFailed sealed18 : ℚ) / (sealed18.length : ℚ) * 100 ∧
    gateExit ((buildReport sealed18 [] false).report.gap_score) (some (111 / 10)) = 0 := by
  have hc : countFailed sealed18 = 2 := by decide
  have hl : sealed18.length = 18 := by decide
  refine ⟨?_, sealed18_score, ?_, ?_⟩
  · intro s o b t h
    rw [gateExit_some, if_neg (not_lt.mpr h)]
  · rw [hc, hl]
    norm_num
  · rw [gateExit_some, sealed18_score, if_neg (lt_irrefl _)]

/-- C10 witness: the quantified clause applied to the 18-test suite with
threshold 12. -/
theorem C10_gate_compares_rounded_score_witness :
    gateExit ((buildReport sealed18 [] false).report.gap_score) (some 12) = 0 :=
  C10_gate_compares_rounded_score.1 sealed18 [] false 12 (by rw [sealed18_score]; norm_num)

end GapScore
